import Mathlib

/-!
Verification of the KMIP session/exchange state-machine layer of
`src/mongo/db/encryption/kmip_session.h`.

The three session classes (`KmipSessionRegisterSymmetricKey`,
`KmipSessionGetSymmetricKey`, `KmipSessionVerifyKeyIsActive`) are embedded
as Lean structures with a pure `nextExchange` step function translated
statement-by-statement from the C++ source.  The `invariant(...)` macro
(process abort) and throwing decode accessors are embedded as an `Except`
error result: an `invariantViolation` models an assertion failure, a
`decodeError` models a thrown decode-level failure; in either case the
C++ object's fields are left unchanged, which the embedding reflects by
not producing a successor state.

The exchange side (`kmip_exchange.h`) is not among the sources; its data
model and interpretation accessors are modelled from the spec, each such
definition carrying a `Modelled from the spec:` doc comment.
-/

namespace KmipVerify

/-- Modelled from the spec: `KeyEntryError` (kmip_exchange.h is absent) is a
closed enumeration of semantically meaningful non-exceptional outcomes of a
key lookup, at minimum `kKeyDoesNotExist`; the spec also names a key that
exists but is not active as a negative verification outcome. -/
inductive KeyEntryError where
  | kKeyDoesNotExist
  | kKeyIsNotActive
  deriving DecidableEq, Repr

/-- Modelled from the spec: a `Key` (its class is absent from the sources) is
opaque key material plus identifying metadata, immutable once constructed. -/
structure Key where
  keyId : String
  material : List Nat
  deriving DecidableEq, Repr

/-- Modelled from the spec: the Exchange lifecycle states, strictly
forward-moving: Created, RequestEncoded, AwaitingResponse, ResponseReceived
and the terminal Interpreted/Failed.  The sessions only test
`kResponseReceived`. -/
inductive ExchangeState where
  | kCreated
  | kRequestEncoded
  | kAwaitingResponse
  | kResponseReceived
  | kInterpreted
  | kFailed
  deriving DecidableEq, Repr

/-- The four exchange operation kinds, each bound to its input, mirroring
the C++ classes `KmipExchangeRegisterSymmetricKey(key)`,
`KmipExchangeActivate(keyId)`, `KmipExchangeGetSymmetricKey(keyId)` and
`KmipExchangeVerifyKeyIsActive(keyId)`. -/
inductive KmipOperation where
  | registerSymmetricKey (key : Key)
  | activate (keyId : String)
  | getSymmetricKey (keyId : String)
  | verifyKeyIsActive (keyId : String)
  deriving DecidableEq, Repr

/-- The operation kind with its bound input erased (used to state trace
properties about the sequence of exchange kinds). -/
inductive ExchangeKind where
  | registerSymmetricKey
  | activate
  | getSymmetricKey
  | verifyKeyIsActive
  deriving DecidableEq, Repr

/-- Modelled from the spec: a raw server response, represented by its decoded
content since the TTLV wire layout is out of scope; `malformed` stands for
bytes that cannot be parsed as a structurally valid response of the expected
type. -/
inductive KmipResponse where
  | registered (keyId : String)
  | activateStatus (success : Bool)
  | verified (error : Option KeyEntryError)
  | retrieved (key : Option Key)
  | malformed
  deriving DecidableEq, Repr

/-- A failure outcome of a session or exchange call: `invariantViolation`
embeds a failed `invariant(...)` assertion (contract violation, process
abort in C++); `decodeError` embeds a thrown decode-level failure. -/
inductive SessionError where
  | invariantViolation
  | decodeError
  deriving DecidableEq, Repr

/-- Modelled from the spec: an Exchange is one request/response round trip,
created already bound to its operation's input, holding its lifecycle state
and, once ingested, the raw response. -/
structure KmipExchange where
  op : KmipOperation
  _state : ExchangeState
  _response : Option KmipResponse
  deriving DecidableEq, Repr

namespace KmipExchange

/-- A freshly created exchange for the given operation. -/
def create (op : KmipOperation) : KmipExchange :=
  { op := op, _state := ExchangeState.kCreated, _response := none }

/-- The lifecycle state of the exchange (the C++ `state()` accessor). -/
def state (e : KmipExchange) : ExchangeState :=
  e._state

/-- The kind of the exchange's operation, input erased. -/
def kind (e : KmipExchange) : ExchangeKind :=
  match e.op with
  | KmipOperation.registerSymmetricKey _ => ExchangeKind.registerSymmetricKey
  | KmipOperation.activate _ => ExchangeKind.activate
  | KmipOperation.getSymmetricKey _ => ExchangeKind.getSymmetricKey
  | KmipOperation.verifyKeyIsActive _ => ExchangeKind.verifyKeyIsActive

/-- Modelled from the spec: `encodeRequest` is callable only in `kCreated`
and transitions to `kRequestEncoded`; on any other state the call is a
contract violation and the exchange is unchanged. -/
def encodeRequest (e : KmipExchange) : KmipExchange :=
  if e._state = ExchangeState.kCreated then
    { e with _state := ExchangeState.kRequestEncoded }
  else e

/-- Modelled from the spec: once the Driver has sent the encoded request the
exchange is awaiting the response. -/
def markSent (e : KmipExchange) : KmipExchange :=
  if e._state = ExchangeState.kRequestEncoded then
    { e with _state := ExchangeState.kAwaitingResponse }
  else e

/-- Modelled from the spec: `ingestResponse` is callable only in
`kAwaitingResponse`; it transitions to `kResponseReceived` on structurally
valid input and to `kFailed` on malformed input. -/
def ingestResponse (e : KmipExchange) (r : KmipResponse) : KmipExchange :=
  if e._state = ExchangeState.kAwaitingResponse then
    match r with
    | KmipResponse.malformed => { e with _state := ExchangeState.kFailed }
    | r' =>
        { e with _state := ExchangeState.kResponseReceived, _response := some r' }
  else e

/-- The Driver's handling of one exchange: encode the request, send it, and
ingest the raw response received from the server. -/
def driverDeliver (e : KmipExchange) (r : KmipResponse) : KmipExchange :=
  ingestResponse (markSent (encodeRequest e)) r

/-- Modelled from the spec: `decodeKeyId` on a Register exchange yields the
freshly assigned key identifier; callable only in `kResponseReceived`
(otherwise a contract violation); any response other than a well-formed
Register response is a decode-level failure. -/
def decodeKeyId (e : KmipExchange) : Except SessionError String :=
  if e._state = ExchangeState.kResponseReceived then
    match e._response with
    | some (KmipResponse.registered id) => Except.ok id
    | _ => Except.error SessionError.decodeError
  else Except.error SessionError.invariantViolation

/-- Modelled from the spec: `verifyResponse` on an Activate exchange checks
the server-reported status; any non-success status is a decode-level failure;
callable only in `kResponseReceived`. -/
def verifyResponse (e : KmipExchange) : Except SessionError Unit :=
  if e._state = ExchangeState.kResponseReceived then
    match e._response with
    | some (KmipResponse.activateStatus true) => Except.ok ()
    | _ => Except.error SessionError.decodeError
  else Except.error SessionError.invariantViolation

/-- Modelled from the spec: `decodeResponse` on a VerifyActive exchange
yields an optional `KeyEntryError` — `none` means the key exists and is
active, a populated error describes why it is not usable; callable only in
`kResponseReceived`. -/
def decodeResponse (e : KmipExchange) : Except SessionError (Option KeyEntryError) :=
  if e._state = ExchangeState.kResponseReceived then
    match e._response with
    | some (KmipResponse.verified oe) => Except.ok oe
    | _ => Except.error SessionError.decodeError
  else Except.error SessionError.invariantViolation

/-- Modelled from the spec: `decodeKey` on a Retrieve exchange yields an
optional `Key` — present on success, absent if the server reports the key
unknown; callable only in `kResponseReceived`. -/
def decodeKey (e : KmipExchange) : Except SessionError (Option Key) :=
  if e._state = ExchangeState.kResponseReceived then
    match e._response with
    | some (KmipResponse.retrieved ok) => Except.ok ok
    | _ => Except.error SessionError.decodeError
  else Except.error SessionError.invariantViolation

end KmipExchange

/-- The nested `State` enum of `KmipSessionRegisterSymmetricKey`. -/
inductive RegisterSymmetricKeyState where
  | kNotStarted
  | kRegistering
  | kActivating
  | kFinished
  deriving DecidableEq, Repr

/-- Embedding of the C++ class `KmipSessionRegisterSymmetricKey`: the
constructor arguments, the state enum, the two exchange pointers (null
embedded as `none`) and the retained key id (default-constructed to the
empty string, as in C++). -/
structure KmipSessionRegisterSymmetricKey where
  _key : Key
  _withActivation : Bool
  _state : RegisterSymmetricKeyState
  _register : Option KmipExchange
  _activate : Option KmipExchange
  _keyId : String
  deriving DecidableEq, Repr

namespace KmipSessionRegisterSymmetricKey

/-- The C++ constructor `KmipSessionRegisterSymmetricKey(key, withActivation)`:
state starts at `kNotStarted`, both exchange pointers null, `_keyId` empty. -/
def create (key : Key) (withActivation : Bool) : KmipSessionRegisterSymmetricKey :=
  { _key := key, _withActivation := withActivation,
    _state := RegisterSymmetricKeyState.kNotStarted,
    _register := none, _activate := none, _keyId := "" }

/-- Statement-by-statement embedding of
`KmipSessionRegisterSymmetricKey::nextExchange` (kmip_session.h:75-103).
A failed `invariant` or a throwing decode call yields `Except.error`, leaving
no successor state (the C++ object's fields are unchanged in that case); a
normal return yields the returned pointer and the updated session. -/
def nextExchange (s : KmipSessionRegisterSymmetricKey) :
    Except SessionError (Option KmipExchange × KmipSessionRegisterSymmetricKey) :=
  match s._state with
  | RegisterSymmetricKeyState.kNotStarted =>
      let ex := KmipExchange.create (KmipOperation.registerSymmetricKey s._key)
      Except.ok (some ex,
        { s with _register := some ex,
                 _state := RegisterSymmetricKeyState.kRegistering })
  | RegisterSymmetricKeyState.kRegistering =>
      match s._register with
      | none => Except.error SessionError.invariantViolation
      | some ex =>
          if ex.state = ExchangeState.kResponseReceived then
            match ex.decodeKeyId with
            | Except.error e => Except.error e
            | Except.ok id =>
                if !s._withActivation then
                  Except.ok (none,
                    { s with _keyId := id, _register := none,
                             _state := RegisterSymmetricKeyState.kFinished })
                else
                  let ax := KmipExchange.create (KmipOperation.activate id)
                  Except.ok (some ax,
                    { s with _keyId := id, _register := none,
                             _activate := some ax,
                             _state := RegisterSymmetricKeyState.kActivating })
          else Except.error SessionError.invariantViolation
  | RegisterSymmetricKeyState.kActivating =>
      match s._activate with
      | none => Except.error SessionError.invariantViolation
      | some ex =>
          if ex.state = ExchangeState.kResponseReceived then
            match ex.verifyResponse with
            | Except.error e => Except.error e
            | Except.ok _ =>
                Except.ok (none,
                  { s with _activate := none,
                           _state := RegisterSymmetricKeyState.kFinished })
          else Except.error SessionError.invariantViolation
  | RegisterSymmetricKeyState.kFinished => Except.ok (none, s)

/-- Embedding of `KmipSessionRegisterSymmetricKey::keyId`
(kmip_session.h:105-108): `invariant(_state == State::kFinished)` then
return `_keyId`. -/
def keyId (s : KmipSessionRegisterSymmetricKey) : Except SessionError String :=
  if s._state = RegisterSymmetricKeyState.kFinished then Except.ok s._keyId
  else Except.error SessionError.invariantViolation

/-- The Driver delivering a raw response to the session's in-flight exchange
(the Driver holds the same `shared_ptr` the session stores, so ingesting the
response mutates the stored exchange). -/
def deliver (s : KmipSessionRegisterSymmetricKey) (r : KmipResponse) :
    KmipSessionRegisterSymmetricKey :=
  { s with _register := s._register.map (fun e => e.driverDeliver r),
           _activate := s._activate.map (fun e => e.driverDeliver r) }

end KmipSessionRegisterSymmetricKey

/-- The nested `State` enum of `KmipSessionGetSymmetricKey`. -/
inductive GetSymmetricKeyState where
  | kNotStarted
  | kVerifying
  | kRetrieving
  | kFinished
  deriving DecidableEq, Repr

/-- Embedding of the C++ class `KmipSessionGetSymmetricKey`.  The result
field `_key` is a `std::variant<Key, KeyEntryError>`, embedded as a `Sum`;
a default-constructed variant holds a default-constructed `Key`. -/
structure KmipSessionGetSymmetricKey where
  _keyId : String
  _verifyState : Bool
  _state : GetSymmetricKeyState
  _verify : Option KmipExchange
  _retrieve : Option KmipExchange
  _key : Sum Key KeyEntryError
  deriving DecidableEq, Repr

namespace KmipSessionGetSymmetricKey

/-- The C++ constructor `KmipSessionGetSymmetricKey(keyId, verifyState)`. -/
def create (keyId : String) (verifyState : Bool) : KmipSessionGetSymmetricKey :=
  { _keyId := keyId, _verifyState := verifyState,
    _state := GetSymmetricKeyState.kNotStarted,
    _verify := none, _retrieve := none,
    _key := Sum.inl { keyId := "", material := [] } }

/-- The local lambda `transitionToRetrievingState` of
`KmipSessionGetSymmetricKey::nextExchange` (kmip_session.h:128-132): build a
Retrieve exchange bound to `_keyId`, store it, advance to `kRetrieving` and
return it. -/
def transitionToRetrievingState (s : KmipSessionGetSymmetricKey) :
    Option KmipExchange × KmipSessionGetSymmetricKey :=
  let ex := KmipExchange.create (KmipOperation.getSymmetricKey s._keyId)
  (some ex,
    { s with _retrieve := some ex, _state := GetSymmetricKeyState.kRetrieving })

/-- Statement-by-statement embedding of
`KmipSessionGetSymmetricKey::nextExchange` (kmip_session.h:127-166). -/
def nextExchange (s : KmipSessionGetSymmetricKey) :
    Except SessionError (Option KmipExchange × KmipSessionGetSymmetricKey) :=
  match s._state with
  | GetSymmetricKeyState.kNotStarted =>
      if s._verifyState then
        let ex := KmipExchange.create (KmipOperation.verifyKeyIsActive s._keyId)
        Except.ok (some ex,
          { s with _verify := some ex, _state := GetSymmetricKeyState.kVerifying })
      else Except.ok (transitionToRetrievingState s)
  | GetSymmetricKeyState.kVerifying =>
      match s._verify with
      | none => Except.error SessionError.invariantViolation
      | some ex =>
          if ex.state = ExchangeState.kResponseReceived then
            match ex.decodeResponse with
            | Except.error e => Except.error e
            | Except.ok (some error) =>
                Except.ok (none,
                  { s with _key := Sum.inr error,
                           _state := GetSymmetricKeyState.kFinished,
                           _verify := none })
            | Except.ok none =>
                Except.ok (transitionToRetrievingState { s with _verify := none })
          else Except.error SessionError.invariantViolation
  | GetSymmetricKeyState.kRetrieving =>
      match s._retrieve with
      | none => Except.error SessionError.invariantViolation
      | some ex =>
          if ex.state = ExchangeState.kResponseReceived then
            match ex.decodeKey with
            | Except.error e => Except.error e
            | Except.ok okey =>
                let result := match okey with
                  | some key => Sum.inl key
                  | none => Sum.inr KeyEntryError.kKeyDoesNotExist
                Except.ok (none,
                  { s with _key := result, _retrieve := none,
                           _state := GetSymmetricKeyState.kFinished })
          else Except.error SessionError.invariantViolation
  | GetSymmetricKeyState.kFinished => Except.ok (none, s)

/-- Embedding of `KmipSessionGetSymmetricKey::key` (kmip_session.h:168-171):
`invariant(_state == State::kFinished)` then return `_key`. -/
def key (s : KmipSessionGetSymmetricKey) : Except SessionError (Sum Key KeyEntryError) :=
  if s._state = GetSymmetricKeyState.kFinished then Except.ok s._key
  else Except.error SessionError.invariantViolation

/-- The Driver delivering a raw response to the session's in-flight
exchange. -/
def deliver (s : KmipSessionGetSymmetricKey) (r : KmipResponse) :
    KmipSessionGetSymmetricKey :=
  { s with _verify := s._verify.map (fun e => e.driverDeliver r),
           _retrieve := s._retrieve.map (fun e => e.driverDeliver r) }

end KmipSessionGetSymmetricKey

/-- The nested `State` enum of `KmipSessionVerifyKeyIsActive`. -/
inductive VerifyKeyIsActiveState where
  | kNotStarted
  | kVerifying
  | kFinished
  deriving DecidableEq, Repr

/-- Embedding of the C++ class `KmipSessionVerifyKeyIsActive`. -/
structure KmipSessionVerifyKeyIsActive where
  _keyId : String
  _state : VerifyKeyIsActiveState
  _verify : Option KmipExchange
  _error : Option KeyEntryError
  deriving DecidableEq, Repr

namespace KmipSessionVerifyKeyIsActive

/-- The C++ constructor `KmipSessionVerifyKeyIsActive(keyId)`. -/
def create (keyId : String) : KmipSessionVerifyKeyIsActive :=
  { _keyId := keyId, _state := VerifyKeyIsActiveState.kNotStarted,
    _verify := none, _error := none }

/-- Statement-by-statement embedding of
`KmipSessionVerifyKeyIsActive::nextExchange` (kmip_session.h:190-207). -/
def nextExchange (s : KmipSessionVerifyKeyIsActive) :
    Except SessionError (Option KmipExchange × KmipSessionVerifyKeyIsActive) :=
  match s._state with
  | VerifyKeyIsActiveState.kNotStarted =>
      let ex := KmipExchange.create (KmipOperation.verifyKeyIsActive s._keyId)
      Except.ok (some ex,
        { s with _verify := some ex, _state := VerifyKeyIsActiveState.kVerifying })
  | VerifyKeyIsActiveState.kVerifying =>
      match s._verify with
      | none => Except.error SessionError.invariantViolation
      | some ex =>
          if ex.state = ExchangeState.kResponseReceived then
            match ex.decodeResponse with
            | Except.error e => Except.error e
            | Except.ok oe =>
                Except.ok (none,
                  { s with _error := oe,
                           _state := VerifyKeyIsActiveState.kFinished,
                           _verify := none })
          else Except.error SessionError.invariantViolation
  | VerifyKeyIsActiveState.kFinished => Except.ok (none, s)

/-- Embedding of `KmipSessionVerifyKeyIsActive::error`
(kmip_session.h:209-212): `invariant(_state == State::kFinished)` then
return `_error`. -/
def error (s : KmipSessionVerifyKeyIsActive) : Except SessionError (Option KeyEntryError) :=
  if s._state = VerifyKeyIsActiveState.kFinished then Except.ok s._error
  else Except.error SessionError.invariantViolation

/-- The Driver delivering a raw response to the session's in-flight
exchange. -/
def deliver (s : KmipSessionVerifyKeyIsActive) (r : KmipResponse) :
    KmipSessionVerifyKeyIsActive :=
  { s with _verify := s._verify.map (fun e => e.driverDeliver r) }

end KmipSessionVerifyKeyIsActive

/-- An action of the external Driver loop: ask the session for its next
exchange (`callNext`), or perform the send/receive round trip and deliver
the raw response to the session's in-flight exchange (`deliver`). -/
inductive DriverAction where
  | callNext
  | deliver (r : KmipResponse)
  deriving DecidableEq, Repr

/-- Run a list of Driver actions against a session, collecting the value
returned by each `nextExchange` call; the first assertion failure or thrown
decode failure aborts the whole run. -/
def runSession {σ : Type} (step : σ → Except SessionError (Option KmipExchange × σ))
    (dlv : σ → KmipResponse → σ) :
    σ → List DriverAction → Except SessionError (σ × List (Option KmipExchange))
  | s, [] => Except.ok (s, [])
  | s, DriverAction.callNext :: as =>
      match step s with
      | Except.error e => Except.error e
      | Except.ok (o, s') =>
          match runSession step dlv s' as with
          | Except.error e => Except.error e
          | Except.ok (sf, os) => Except.ok (sf, o :: os)
  | s, DriverAction.deliver r :: as => runSession step dlv (dlv s r) as

theorem runSession_replicate_callNext {σ : Type}
    (step : σ → Except SessionError (Option KmipExchange × σ))
    (dlv : σ → KmipResponse → σ) (s : σ)
    (h : step s = Except.ok (none, s)) :
    ∀ n, runSession step dlv s (List.replicate n DriverAction.callNext) =
      Except.ok (s, List.replicate n none) := by
  intro n
  induction n with
  | zero => rfl
  | succ n ih => simp only [List.replicate_succ, runSession, h, ih]

theorem runSession_fixed {σ : Type}
    (step : σ → Except SessionError (Option KmipExchange × σ))
    (dlv : σ → KmipResponse → σ) (s : σ)
    (hstep : step s = Except.ok (none, s)) (hdlv : ∀ r, dlv s r = s) :
    ∀ as sf os, runSession step dlv s as = Except.ok (sf, os) →
      sf = s ∧ ∀ o ∈ os, o = none := by
  intro as
  induction as with
  | nil =>
      intro sf os h
      rw [runSession] at h
      injection h with h
      injection h with h1 h2
      exact ⟨h1.symm, by simp [← h2]⟩
  | cons a as ih =>
      intro sf os h
      cases a with
      | callNext =>
          simp only [runSession, hstep] at h
          cases hrun : runSession step dlv s as with
          | error e => rw [hrun] at h; exact absurd h (by simp)
          | ok p =>
              obtain ⟨sf', os'⟩ := p
              rw [hrun] at h
              simp at h
              obtain ⟨h1, h2⟩ := h
              obtain ⟨hs, ho⟩ := ih sf' os' hrun
              subst h1 h2
              exact ⟨hs, by simpa using ho⟩
      | deliver r =>
          rw [runSession, hdlv r] at h
          exact ih sf os h

theorem runSession_stuck {σ : Type}
    (step : σ → Except SessionError (Option KmipExchange × σ))
    (dlv : σ → KmipResponse → σ) (s : σ) (e : SessionError)
    (hstep : step s = Except.error e) (hdlv : ∀ r, dlv s r = s) :
    ∀ as sf os, runSession step dlv s as = Except.ok (sf, os) →
      sf = s ∧ os = [] := by
  intro as
  induction as with
  | nil =>
      intro sf os h
      rw [runSession] at h
      injection h with h
      injection h with h1 h2
      exact ⟨h1.symm, h2.symm⟩
  | cons a as ih =>
      intro sf os h
      cases a with
      | callNext =>
          simp only [runSession, hstep] at h
          exact absurd h (by simp)
      | deliver r =>
          rw [runSession, hdlv r] at h
          exact ih sf os h

theorem KmipExchange.state_of_decodeKeyId_ok {e : KmipExchange} {id : String}
    (h : e.decodeKeyId = Except.ok id) :
    e._state = ExchangeState.kResponseReceived := by
  by_contra hne
  rw [KmipExchange.decodeKeyId, if_neg hne] at h
  exact absurd h (by simp)

theorem KmipExchange.state_of_decodeResponse_ok {e : KmipExchange}
    {oe : Option KeyEntryError} (h : e.decodeResponse = Except.ok oe) :
    e._state = ExchangeState.kResponseReceived := by
  by_contra hne
  rw [KmipExchange.decodeResponse, if_neg hne] at h
  exact absurd h (by simp)

theorem KmipExchange.state_of_decodeKey_ok {e : KmipExchange} {ok : Option Key}
    (h : e.decodeKey = Except.ok ok) :
    e._state = ExchangeState.kResponseReceived := by
  by_contra hne
  rw [KmipExchange.decodeKey, if_neg hne] at h
  exact absurd h (by simp)

theorem KmipExchange.state_of_verifyResponse_ok {e : KmipExchange}
    (h : e.verifyResponse = Except.ok ()) :
    e._state = ExchangeState.kResponseReceived := by
  by_contra hne
  rw [KmipExchange.verifyResponse, if_neg hne] at h
  exact absurd h (by simp)

theorem KmipExchange.state_of_verifyResponse_decodeError {e : KmipExchange}
    (h : e.verifyResponse = Except.error SessionError.decodeError) :
    e._state = ExchangeState.kResponseReceived := by
  by_contra hne
  rw [KmipExchange.verifyResponse, if_neg hne] at h
  exact absurd h (by simp)

/-- Delivering a further response to an exchange that already reached
`kResponseReceived` leaves it unchanged: `encodeRequest`, `markSent` and
`ingestResponse` each act only in their designated lifecycle state. -/
theorem KmipExchange.driverDeliver_of_responseReceived (e : KmipExchange)
    (r : KmipResponse) (h : e._state = ExchangeState.kResponseReceived) :
    e.driverDeliver r = e := by
  cases r <;>
    simp [KmipExchange.driverDeliver, KmipExchange.encodeRequest,
      KmipExchange.markSent, KmipExchange.ingestResponse, h]

/-- C7: for every Session variant, once the state has reached `kFinished`,
every subsequent `nextExchange()` call returns null and leaves the session
unchanged, idempotently, any number of times. -/
theorem nextExchange_finished_idempotent :
    (∀ (s : KmipSessionRegisterSymmetricKey),
        s._state = RegisterSymmetricKeyState.kFinished →
        s.nextExchange = Except.ok (none, s) ∧
        ∀ n, runSession KmipSessionRegisterSymmetricKey.nextExchange
            KmipSessionRegisterSymmetricKey.deliver s
            (List.replicate n DriverAction.callNext) =
          Except.ok (s, List.replicate n none)) ∧
    (∀ (s : KmipSessionGetSymmetricKey),
        s._state = GetSymmetricKeyState.kFinished →
        s.nextExchange = Except.ok (none, s) ∧
        ∀ n, runSession KmipSessionGetSymmetricKey.nextExchange
            KmipSessionGetSymmetricKey.deliver s
            (List.replicate n DriverAction.callNext) =
          Except.ok (s, List.replicate n none)) ∧
    (∀ (s : KmipSessionVerifyKeyIsActive),
        s._state = VerifyKeyIsActiveState.kFinished →
        s.nextExchange = Except.ok (none, s) ∧
        ∀ n, runSession KmipSessionVerifyKeyIsActive.nextExchange
            KmipSessionVerifyKeyIsActive.deliver s
            (List.replicate n DriverAction.callNext) =
          Except.ok (s, List.replicate n none)) := by
  refine ⟨fun s h => ?_, fun s h => ?_, fun s h => ?_⟩ <;>
    (first
      | (have hstep : KmipSessionRegisterSymmetricKey.nextExchange s =
            Except.ok (none, s) := by
            simp [KmipSessionRegisterSymmetricKey.nextExchange, h]
         exact ⟨hstep, runSession_replicate_callNext _ _ s hstep⟩)
      | (have hstep : KmipSessionGetSymmetricKey.nextExchange s =
            Except.ok (none, s) := by
            simp [KmipSessionGetSymmetricKey.nextExchange, h]
         exact ⟨hstep, runSession_replicate_callNext _ _ s hstep⟩)
      | (have hstep : KmipSessionVerifyKeyIsActive.nextExchange s =
            Except.ok (none, s) := by
            simp [KmipSessionVerifyKeyIsActive.nextExchange, h]
         exact ⟨hstep, runSession_replicate_callNext _ _ s hstep⟩))

/-- Concrete witness for C7: a finished VerifyKeyIsActive session returns
null from `nextExchange` and is unchanged. -/
theorem nextExchange_finished_idempotent_witness :
    KmipSessionVerifyKeyIsActive.nextExchange
        { _keyId := "kid-1", _state := VerifyKeyIsActiveState.kFinished,
          _verify := none, _error := none } =
      Except.ok (none,
        { _keyId := "kid-1", _state := VerifyKeyIsActiveState.kFinished,
          _verify := none, _error := none }) :=
  (nextExchange_finished_idempotent.2.2
    { _keyId := "kid-1", _state := VerifyKeyIsActiveState.kFinished,
      _verify := none, _error := none } rfl).1

/-- C1: a GetSymmetricKey session in the `kVerifying` state, whose Verify
exchange reached `kResponseReceived`, behaves on `nextExchange()` as follows:
if `decodeResponse` yields a `KeyEntryError`, that error is stored as the
final result, the session advances directly to `kFinished`, null is
returned, and (as the resulting session is inert) no Retrieve exchange is
ever created for this session in any continuation of the run; if
`decodeResponse` yields no error, a Retrieve exchange bound to the session's
key id is created and returned and the state advances to `kRetrieving`. -/
theorem getSymmetricKey_verifying_step
    (s : KmipSessionGetSymmetricKey) (ex : KmipExchange)
    (hst : s._state = GetSymmetricKeyState.kVerifying)
    (hv : s._verify = some ex)
    (hret : s._retrieve = none)
    (hr : ex.state = ExchangeState.kResponseReceived) :
    (∀ err : KeyEntryError, ex.decodeResponse = Except.ok (some err) →
      s.nextExchange = Except.ok (none,
        { s with _key := Sum.inr err,
                 _state := GetSymmetricKeyState.kFinished, _verify := none }) ∧
      (∀ as sf os,
        runSession KmipSessionGetSymmetricKey.nextExchange
            KmipSessionGetSymmetricKey.deliver
            { s with _key := Sum.inr err,
                     _state := GetSymmetricKeyState.kFinished, _verify := none }
            as = Except.ok (sf, os) →
          ∀ o ∈ os, o = none)) ∧
    (ex.decodeResponse = Except.ok none →
      s.nextExchange = Except.ok
        (some (KmipExchange.create (KmipOperation.getSymmetricKey s._keyId)),
          { s with
              _verify := none,
              _retrieve :=
                some (KmipExchange.create (KmipOperation.getSymmetricKey s._keyId)),
              _state := GetSymmetricKeyState.kRetrieving })) := by
  obtain ⟨kid, vs, st, ver, ret, k⟩ := s
  simp only at hst hv hret
  simp only [KmipExchange.state] at hr
  subst hst hv hret
  constructor
  · intro err hdec
    constructor
    · simp [KmipSessionGetSymmetricKey.nextExchange, KmipExchange.state, hr, hdec]
    · intro as sf os hrun
      refine (runSession_fixed _ _ _ ?_ ?_ as sf os hrun).2
      · simp [KmipSessionGetSymmetricKey.nextExchange]
      · intro r
        simp [KmipSessionGetSymmetricKey.deliver]
  · intro hdec
    simp [KmipSessionGetSymmetricKey.nextExchange, KmipExchange.state, hr, hdec,
      KmipSessionGetSymmetricKey.transitionToRetrievingState]

/-- Concrete witness for C1: a Verifying session whose Verify response
reports `kKeyDoesNotExist` finishes immediately with that error. -/
theorem getSymmetricKey_verifying_step_witness :
    KmipSessionGetSymmetricKey.nextExchange
        { _keyId := "kid-2", _verifyState := true,
          _state := GetSymmetricKeyState.kVerifying,
          _verify := some
            { op := KmipOperation.verifyKeyIsActive "kid-2",
              _state := ExchangeState.kResponseReceived,
              _response :=
                some (KmipResponse.verified (some KeyEntryError.kKeyDoesNotExist)) },
          _retrieve := none, _key := Sum.inl { keyId := "", material := [] } } =
      Except.ok (none,
        { _keyId := "kid-2", _verifyState := true,
          _state := GetSymmetricKeyState.kFinished,
          _verify := none, _retrieve := none,
          _key := Sum.inr KeyEntryError.kKeyDoesNotExist }) :=
  ((getSymmetricKey_verifying_step
      { _keyId := "kid-2", _verifyState := true,
        _state := GetSymmetricKeyState.kVerifying,
        _verify := some
          { op := KmipOperation.verifyKeyIsActive "kid-2",
            _state := ExchangeState.kResponseReceived,
            _response :=
              some (KmipResponse.verified (some KeyEntryError.kKeyDoesNotExist)) },
        _retrieve := none, _key := Sum.inl { keyId := "", material := [] } }
      { op := KmipOperation.verifyKeyIsActive "kid-2",
        _state := ExchangeState.kResponseReceived,
        _response :=
          some (KmipResponse.verified (some KeyEntryError.kKeyDoesNotExist)) }
      rfl rfl rfl rfl).1
    KeyEntryError.kKeyDoesNotExist rfl).1

/-- C3: a GetSymmetricKey session in the `kRetrieving` state, whose Retrieve
exchange reached `kResponseReceived`, stores the decoded `Key` as the result
when `decodeKey` yields a key, stores `KeyEntryError.kKeyDoesNotExist` when
it yields none, and advances to `kFinished`; in particular, with
`verifyState = false` exactly one exchange (a Retrieve) is produced before
`kFinished`, whatever the decoded outcome of its response. -/
theorem getSymmetricKey_retrieving_step
    (s : KmipSessionGetSymmetricKey) (ex : KmipExchange)
    (hst : s._state = GetSymmetricKeyState.kRetrieving)
    (hrx : s._retrieve = some ex)
    (hr : ex.state = ExchangeState.kResponseReceived) :
    (∀ k : Key, ex.decodeKey = Except.ok (some k) →
      s.nextExchange = Except.ok (none,
        { s with _key := Sum.inl k, _retrieve := none,
                 _state := GetSymmetricKeyState.kFinished })) ∧
    (ex.decodeKey = Except.ok none →
      s.nextExchange = Except.ok (none,
        { s with _key := Sum.inr KeyEntryError.kKeyDoesNotExist,
                 _retrieve := none,
                 _state := GetSymmetricKeyState.kFinished })) ∧
    (∀ (kid : String) (r : KmipResponse) (ores : Option Key),
      (KmipExchange.driverDeliver
          (KmipExchange.create (KmipOperation.getSymmetricKey kid)) r).decodeKey =
        Except.ok ores →
      (KmipSessionGetSymmetricKey.create kid false).nextExchange =
        Except.ok
          (some (KmipExchange.create (KmipOperation.getSymmetricKey kid)),
            { _keyId := kid, _verifyState := false,
              _state := GetSymmetricKeyState.kRetrieving,
              _verify := none,
              _retrieve := some (KmipExchange.create (KmipOperation.getSymmetricKey kid)),
              _key := Sum.inl { keyId := "", material := [] } }) ∧
      KmipSessionGetSymmetricKey.nextExchange
          (KmipSessionGetSymmetricKey.deliver
            { _keyId := kid, _verifyState := false,
              _state := GetSymmetricKeyState.kRetrieving,
              _verify := none,
              _retrieve := some (KmipExchange.create (KmipOperation.getSymmetricKey kid)),
              _key := Sum.inl { keyId := "", material := [] } } r) =
        Except.ok (none,
          { _keyId := kid, _verifyState := false,
            _state := GetSymmetricKeyState.kFinished,
            _verify := none, _retrieve := none,
            _key := match ores with
              | some key => Sum.inl key
              | none => Sum.inr KeyEntryError.kKeyDoesNotExist })) := by
  obtain ⟨kid0, vs, st, ver, ret, k⟩ := s
  simp only at hst hrx
  simp only [KmipExchange.state] at hr
  subst hst hrx
  refine ⟨?_, ?_, ?_⟩
  · intro key hdec
    simp [KmipSessionGetSymmetricKey.nextExchange, KmipExchange.state, hr, hdec]
  · intro hdec
    simp [KmipSessionGetSymmetricKey.nextExchange, KmipExchange.state, hr, hdec]
  · intro kid r ores hdec
    have hrr := KmipExchange.state_of_decodeKey_ok hdec
    constructor
    · simp [KmipSessionGetSymmetricKey.create, KmipSessionGetSymmetricKey.nextExchange,
        KmipSessionGetSymmetricKey.transitionToRetrievingState]
    · cases ores <;>
        simp [KmipSessionGetSymmetricKey.deliver,
          KmipSessionGetSymmetricKey.nextExchange, KmipExchange.state, hrr, hdec]

/-- Concrete witness for C3: with `verifyState = false` a single Retrieve
exchange is produced and an absent key is reported as `kKeyDoesNotExist`. -/
theorem getSymmetricKey_retrieving_step_witness :
    KmipSessionGetSymmetricKey.nextExchange
        { _keyId := "kid-3", _verifyState := false,
          _state := GetSymmetricKeyState.kRetrieving,
          _verify := none,
          _retrieve := some
            { op := KmipOperation.getSymmetricKey "kid-3",
              _state := ExchangeState.kResponseReceived,
              _response := some (KmipResponse.retrieved none) },
          _key := Sum.inl { keyId := "", material := [] } } =
      Except.ok (none,
        { _keyId := "kid-3", _verifyState := false,
          _state := GetSymmetricKeyState.kFinished,
          _verify := none, _retrieve := none,
          _key := Sum.inr KeyEntryError.kKeyDoesNotExist }) :=
  (getSymmetricKey_retrieving_step
      { _keyId := "kid-3", _verifyState := false,
        _state := GetSymmetricKeyState.kRetrieving,
        _verify := none,
        _retrieve := some
          { op := KmipOperation.getSymmetricKey "kid-3",
            _state := ExchangeState.kResponseReceived,
            _response := some (KmipResponse.retrieved none) },
        _key := Sum.inl { keyId := "", material := [] } }
      { op := KmipOperation.getSymmetricKey "kid-3",
        _state := ExchangeState.kResponseReceived,
        _response := some (KmipResponse.retrieved none) }
      rfl rfl rfl).2.1 rfl

/-- C4: a RegisterSymmetricKey session constructed with
`withActivation = false` produces exactly one exchange (a Register exchange
bound to the key) before reaching `kFinished`, and once finished `keyId()`
returns exactly the key identifier decoded from the Register exchange's
response. -/
theorem registerSymmetricKey_noActivation_run
    (key : Key) (r : KmipResponse) (id : String)
    (hdec : (KmipExchange.driverDeliver
        (KmipExchange.create (KmipOperation.registerSymmetricKey key)) r).decodeKeyId =
      Except.ok id) :
    (KmipSessionRegisterSymmetricKey.create key false).nextExchange =
      Except.ok
        (some (KmipExchange.create (KmipOperation.registerSymmetricKey key)),
          { _key := key, _withActivation := false,
            _state := RegisterSymmetricKeyState.kRegistering,
            _register := some (KmipExchange.create (KmipOperation.registerSymmetricKey key)),
            _activate := none, _keyId := "" }) ∧
    KmipSessionRegisterSymmetricKey.nextExchange
        (KmipSessionRegisterSymmetricKey.deliver
          { _key := key, _withActivation := false,
            _state := RegisterSymmetricKeyState.kRegistering,
            _register := some (KmipExchange.create (KmipOperation.registerSymmetricKey key)),
            _activate := none, _keyId := "" } r) =
      Except.ok (none,
        { _key := key, _withActivation := false,
          _state := RegisterSymmetricKeyState.kFinished,
          _register := none, _activate := none, _keyId := id }) ∧
    KmipSessionRegisterSymmetricKey.keyId
        { _key := key, _withActivation := false,
          _state := RegisterSymmetricKeyState.kFinished,
          _register := none, _activate := none, _keyId := id } =
      Except.ok id := by
  have hrr := KmipExchange.state_of_decodeKeyId_ok hdec
  refine ⟨?_, ?_, ?_⟩
  · simp [KmipSessionRegisterSymmetricKey.create,
      KmipSessionRegisterSymmetricKey.nextExchange]
  · simp [KmipSessionRegisterSymmetricKey.deliver,
      KmipSessionRegisterSymmetricKey.nextExchange, KmipExchange.state, hrr, hdec]
  · simp [KmipSessionRegisterSymmetricKey.keyId]

/-- Concrete witness for C4: registering without activation finishes after
the single Register exchange with the decoded id `"new-id"`. -/
theorem registerSymmetricKey_noActivation_run_witness :
    KmipSessionRegisterSymmetricKey.keyId
        { _key := { keyId := "", material := [1, 2] }, _withActivation := false,
          _state := RegisterSymmetricKeyState.kFinished,
          _register := none, _activate := none, _keyId := "new-id" } =
      Except.ok "new-id" :=
  (registerSymmetricKey_noActivation_run { keyId := "", material := [1, 2] }
    (KmipResponse.registered "new-id") "new-id" rfl).2.2

/-- C5: a VerifyKeyIsActive session produces exactly one exchange — a
VerifyActive exchange bound to the constructor's key id — before
`kFinished`, and once finished `error()` returns exactly the optional
`KeyEntryError` decoded from that exchange's response (none for an active
key, populated otherwise). -/
theorem verifyKeyIsActive_run
    (kid : String) (r : KmipResponse) (oe : Option KeyEntryError)
    (hdec : (KmipExchange.driverDeliver
        (KmipExchange.create (KmipOperation.verifyKeyIsActive kid)) r).decodeResponse =
      Except.ok oe) :
    (KmipSessionVerifyKeyIsActive.create kid).nextExchange =
      Except.ok
        (some (KmipExchange.create (KmipOperation.verifyKeyIsActive kid)),
          { _keyId := kid, _state := VerifyKeyIsActiveState.kVerifying,
            _verify := some (KmipExchange.create (KmipOperation.verifyKeyIsActive kid)),
            _error := none }) ∧
    KmipSessionVerifyKeyIsActive.nextExchange
        (KmipSessionVerifyKeyIsActive.deliver
          { _keyId := kid, _state := VerifyKeyIsActiveState.kVerifying,
            _verify := some (KmipExchange.create (KmipOperation.verifyKeyIsActive kid)),
            _error := none } r) =
      Except.ok (none,
        { _keyId := kid, _state := VerifyKeyIsActiveState.kFinished,
          _verify := none, _error := oe }) ∧
    KmipSessionVerifyKeyIsActive.error
        { _keyId := kid, _state := VerifyKeyIsActiveState.kFinished,
          _verify := none, _error := oe } =
      Except.ok oe := by
  have hrr := KmipExchange.state_of_decodeResponse_ok hdec
  refine ⟨?_, ?_, ?_⟩
  · simp [KmipSessionVerifyKeyIsActive.create,
      KmipSessionVerifyKeyIsActive.nextExchange]
  · simp [KmipSessionVerifyKeyIsActive.deliver,
      KmipSessionVerifyKeyIsActive.nextExchange, KmipExchange.state, hrr, hdec]
  · simp [KmipSessionVerifyKeyIsActive.error]

/-- Concrete witness for C5: an "active" response yields `error() = none`,
reached after the single VerifyActive exchange. -/
theorem verifyKeyIsActive_run_witness :
    KmipSessionVerifyKeyIsActive.error
        { _keyId := "kid-5", _state := VerifyKeyIsActiveState.kFinished,
          _verify := none, _error := none } =
      Except.ok none :=
  (verifyKeyIsActive_run "kid-5" (KmipResponse.verified none) none rfl).2.2

/-- C2: a RegisterSymmetricKey session constructed with
`withActivation = true` produces exactly two exchanges across successive
`nextExchange()` calls: first a Register exchange bound to the key, then an
Activate exchange bound to the key id decoded from the Register response
(the third call returns null once activation verifies).  If verifying the
Activate response signals failure, the session reports a decode-level
failure, stays out of `kFinished`, and `keyId()` is never readable in any
continuation of the run. -/
theorem registerSymmetricKey_withActivation_trace
    (key : Key) (r1 : KmipResponse) (id : String)
    (hdec : (KmipExchange.driverDeliver
        (KmipExchange.create (KmipOperation.registerSymmetricKey key)) r1).decodeKeyId =
      Except.ok id) :
    (KmipSessionRegisterSymmetricKey.create key true).nextExchange =
      Except.ok
        (some (KmipExchange.create (KmipOperation.registerSymmetricKey key)),
          { _key := key, _withActivation := true,
            _state := RegisterSymmetricKeyState.kRegistering,
            _register := some (KmipExchange.create (KmipOperation.registerSymmetricKey key)),
            _activate := none, _keyId := "" }) ∧
    KmipSessionRegisterSymmetricKey.nextExchange
        (KmipSessionRegisterSymmetricKey.deliver
          { _key := key, _withActivation := true,
            _state := RegisterSymmetricKeyState.kRegistering,
            _register := some (KmipExchange.create (KmipOperation.registerSymmetricKey key)),
            _activate := none, _keyId := "" } r1) =
      Except.ok
        (some (KmipExchange.create (KmipOperation.activate id)),
          { _key := key, _withActivation := true,
            _state := RegisterSymmetricKeyState.kActivating,
            _register := none,
            _activate := some (KmipExchange.create (KmipOperation.activate id)),
            _keyId := id }) ∧
    (∀ r2 : KmipResponse,
      ((KmipExchange.create (KmipOperation.activate id)).driverDeliver r2).verifyResponse =
          Except.ok () →
        KmipSessionRegisterSymmetricKey.nextExchange
            (KmipSessionRegisterSymmetricKey.deliver
              { _key := key, _withActivation := true,
                _state := RegisterSymmetricKeyState.kActivating,
                _register := none,
                _activate := some (KmipExchange.create (KmipOperation.activate id)),
                _keyId := id } r2) =
          Except.ok (none,
            { _key := key, _withActivation := true,
              _state := RegisterSymmetricKeyState.kFinished,
              _register := none, _activate := none, _keyId := id })) ∧
    (∀ r2 : KmipResponse,
      ((KmipExchange.create (KmipOperation.activate id)).driverDeliver r2).verifyResponse =
          Except.error SessionError.decodeError →
        KmipSessionRegisterSymmetricKey.nextExchange
            (KmipSessionRegisterSymmetricKey.deliver
              { _key := key, _withActivation := true,
                _state := RegisterSymmetricKeyState.kActivating,
                _register := none,
                _activate := some (KmipExchange.create (KmipOperation.activate id)),
                _keyId := id } r2) =
          Except.error SessionError.decodeError ∧
        KmipSessionRegisterSymmetricKey.keyId
            (KmipSessionRegisterSymmetricKey.deliver
              { _key := key, _withActivation := true,
                _state := RegisterSymmetricKeyState.kActivating,
                _register := none,
                _activate := some (KmipExchange.create (KmipOperation.activate id)),
                _keyId := id } r2) =
          Except.error SessionError.invariantViolation ∧
        ∀ as sf os,
          runSession KmipSessionRegisterSymmetricKey.nextExchange
              KmipSessionRegisterSymmetricKey.deliver
              (KmipSessionRegisterSymmetricKey.deliver
                { _key := key, _withActivation := true,
                  _state := RegisterSymmetricKeyState.kActivating,
                  _register := none,
                  _activate := some (KmipExchange.create (KmipOperation.activate id)),
                  _keyId := id } r2)
              as = Except.ok (sf, os) →
            KmipSessionRegisterSymmetricKey.keyId sf =
              Except.error SessionError.invariantViolation) := by
  have hrr := KmipExchange.state_of_decodeKeyId_ok hdec
  refine ⟨?_, ?_, ?_, ?_⟩
  · simp [KmipSessionRegisterSymmetricKey.create,
      KmipSessionRegisterSymmetricKey.nextExchange]
  · simp [KmipSessionRegisterSymmetricKey.deliver,
      KmipSessionRegisterSymmetricKey.nextExchange, KmipExchange.state, hrr, hdec]
  · intro r2 hok
    have hrr2 := KmipExchange.state_of_verifyResponse_ok hok
    simp [KmipSessionRegisterSymmetricKey.deliver,
      KmipSessionRegisterSymmetricKey.nextExchange, KmipExchange.state, hrr2, hok]
  · intro r2 hfail
    have hrr2 := KmipExchange.state_of_verifyResponse_decodeError hfail
    have hstep :
        KmipSessionRegisterSymmetricKey.nextExchange
            (KmipSessionRegisterSymmetricKey.deliver
              { _key := key, _withActivation := true,
                _state := RegisterSymmetricKeyState.kActivating,
                _register := none,
                _activate := some (KmipExchange.create (KmipOperation.activate id)),
                _keyId := id } r2) =
          Except.error SessionError.decodeError := by
      simp [KmipSessionRegisterSymmetricKey.deliver,
        KmipSessionRegisterSymmetricKey.nextExchange, KmipExchange.state, hrr2, hfail]
    have hdlv :
        ∀ r, KmipSessionRegisterSymmetricKey.deliver
            (KmipSessionRegisterSymmetricKey.deliver
              { _key := key, _withActivation := true,
                _state := RegisterSymmetricKeyState.kActivating,
                _register := none,
                _activate := some (KmipExchange.create (KmipOperation.activate id)),
                _keyId := id } r2) r =
          KmipSessionRegisterSymmetricKey.deliver
            { _key := key, _withActivation := true,
              _state := RegisterSymmetricKeyState.kActivating,
              _register := none,
              _activate := some (KmipExchange.create (KmipOperation.activate id)),
              _keyId := id } r2 := by
      intro r
      simp [KmipSessionRegisterSymmetricKey.deliver,
        KmipExchange.driverDeliver_of_responseReceived _ r hrr2]
    refine ⟨hstep, ?_, ?_⟩
    · simp [KmipSessionRegisterSymmetricKey.deliver,
        KmipSessionRegisterSymmetricKey.keyId]
    · intro as sf os hrun
      have := runSession_stuck _ _ _ _ hstep hdlv as sf os hrun
      rw [this.1]
      simp [KmipSessionRegisterSymmetricKey.deliver,
        KmipSessionRegisterSymmetricKey.keyId]

/-- Concrete witness for C2: with activation the second call returns the
Activate exchange bound to the id decoded from the Register response. -/
theorem registerSymmetricKey_withActivation_trace_witness :
    KmipSessionRegisterSymmetricKey.nextExchange
        (KmipSessionRegisterSymmetricKey.deliver
          { _key := { keyId := "", material := [3] }, _withActivation := true,
            _state := RegisterSymmetricKeyState.kRegistering,
            _register := some
              (KmipExchange.create
                (KmipOperation.registerSymmetricKey { keyId := "", material := [3] })),
            _activate := none, _keyId := "" } (KmipResponse.registered "id-2")) =
      Except.ok
        (some (KmipExchange.create (KmipOperation.activate "id-2")),
          { _key := { keyId := "", material := [3] }, _withActivation := true,
            _state := RegisterSymmetricKeyState.kActivating,
            _register := none,
            _activate := some (KmipExchange.create (KmipOperation.activate "id-2")),
            _keyId := "id-2" }) :=
  (registerSymmetricKey_withActivation_trace { keyId := "", material := [3] }
    (KmipResponse.registered "id-2") "id-2" rfl).2.1

/-- C6: for every Session variant, reading the terminal accessor (`keyId()`,
`key()`, `error()`) while the state is not `kFinished`, or calling
`nextExchange()` in a non-initial, non-finished state while the previously
returned exchange has not reached `kResponseReceived`, is an immediate
assertion failure (`invariant`), never a returned value. -/
theorem contract_violations_fail_fast :
    (∀ s : KmipSessionRegisterSymmetricKey,
      s._state ≠ RegisterSymmetricKeyState.kFinished →
      s.keyId = Except.error SessionError.invariantViolation) ∧
    (∀ s : KmipSessionGetSymmetricKey,
      s._state ≠ GetSymmetricKeyState.kFinished →
      s.key = Except.error SessionError.invariantViolation) ∧
    (∀ s : KmipSessionVerifyKeyIsActive,
      s._state ≠ VerifyKeyIsActiveState.kFinished →
      s.error = Except.error SessionError.invariantViolation) ∧
    (∀ (s : KmipSessionRegisterSymmetricKey) (ex : KmipExchange),
      ((s._state = RegisterSymmetricKeyState.kRegistering ∧ s._register = some ex) ∨
        (s._state = RegisterSymmetricKeyState.kActivating ∧ s._activate = some ex)) →
      ex.state ≠ ExchangeState.kResponseReceived →
      s.nextExchange = Except.error SessionError.invariantViolation) ∧
    (∀ (s : KmipSessionGetSymmetricKey) (ex : KmipExchange),
      ((s._state = GetSymmetricKeyState.kVerifying ∧ s._verify = some ex) ∨
        (s._state = GetSymmetricKeyState.kRetrieving ∧ s._retrieve = some ex)) →
      ex.state ≠ ExchangeState.kResponseReceived →
      s.nextExchange = Except.error SessionError.invariantViolation) ∧
    (∀ (s : KmipSessionVerifyKeyIsActive) (ex : KmipExchange),
      s._state = VerifyKeyIsActiveState.kVerifying → s._verify = some ex →
      ex.state ≠ ExchangeState.kResponseReceived →
      s.nextExchange = Except.error SessionError.invariantViolation) := by
  refine ⟨?_, ?_, ?_, ?_, ?_, ?_⟩
  · intro s h
    simp [KmipSessionRegisterSymmetricKey.keyId, h]
  · intro s h
    simp [KmipSessionGetSymmetricKey.key, h]
  · intro s h
    simp [KmipSessionVerifyKeyIsActive.error, h]
  · intro s ex hcase hne
    simp only [KmipExchange.state] at hne
    rcases hcase with ⟨hst, hex⟩ | ⟨hst, hex⟩ <;>
      simp [KmipSessionRegisterSymmetricKey.nextExchange, KmipExchange.state,
        hst, hex, hne]
  · intro s ex hcase hne
    simp only [KmipExchange.state] at hne
    rcases hcase with ⟨hst, hex⟩ | ⟨hst, hex⟩ <;>
      simp [KmipSessionGetSymmetricKey.nextExchange, KmipExchange.state,
        hst, hex, hne]
  · intro s ex hst hex hne
    simp only [KmipExchange.state] at hne
    simp [KmipSessionVerifyKeyIsActive.nextExchange, KmipExchange.state,
      hst, hex, hne]

/-- Concrete witness for C6: reading `keyId()` in `kRegistering`, and calling
`nextExchange()` while the in-flight Register exchange is still `kCreated`,
both fail the assertion. -/
theorem contract_violations_fail_fast_witness :
    KmipSessionRegisterSymmetricKey.keyId
        { _key := { keyId := "", material := [] }, _withActivation := true,
          _state := RegisterSymmetricKeyState.kRegistering,
          _register := some
            (KmipExchange.create
              (KmipOperation.registerSymmetricKey { keyId := "", material := [] })),
          _activate := none, _keyId := "" } =
      Except.error SessionError.invariantViolation ∧
    KmipSessionRegisterSymmetricKey.nextExchange
        { _key := { keyId := "", material := [] }, _withActivation := true,
          _state := RegisterSymmetricKeyState.kRegistering,
          _register := some
            (KmipExchange.create
              (KmipOperation.registerSymmetricKey { keyId := "", material := [] })),
          _activate := none, _keyId := "" } =
      Except.error SessionError.invariantViolation :=
  ⟨contract_violations_fail_fast.1
      { _key := { keyId := "", material := [] }, _withActivation := true,
        _state := RegisterSymmetricKeyState.kRegistering,
        _register := some
          (KmipExchange.create
            (KmipOperation.registerSymmetricKey { keyId := "", material := [] })),
        _activate := none, _keyId := "" } (by decide),
    contract_violations_fail_fast.2.2.2.1
      { _key := { keyId := "", material := [] }, _withActivation := true,
        _state := RegisterSymmetricKeyState.kRegistering,
        _register := some
          (KmipExchange.create
            (KmipOperation.registerSymmetricKey { keyId := "", material := [] })),
        _activate := none, _keyId := "" }
      (KmipExchange.create
        (KmipOperation.registerSymmetricKey { keyId := "", material := [] }))
      (Or.inl ⟨rfl, rfl⟩) (by decide)⟩

/-- Sessions reachable from the constructor by any interleaving of
`nextExchange()` calls (that return normally) and response deliveries. -/
inductive RegReach : KmipSessionRegisterSymmetricKey → Prop where
  | init (key : Key) (b : Bool) :
      RegReach (KmipSessionRegisterSymmetricKey.create key b)
  | next {s : KmipSessionRegisterSymmetricKey} {o : Option KmipExchange}
      {s' : KmipSessionRegisterSymmetricKey} :
      RegReach s → s.nextExchange = Except.ok (o, s') → RegReach s'
  | deliver {s : KmipSessionRegisterSymmetricKey} (r : KmipResponse) :
      RegReach s → RegReach (s.deliver r)

/-- State/pointer correspondence for RegisterSymmetricKey sessions: the
Register pointer lives only in `kRegistering`, the Activate pointer only in
`kActivating`, and a finished or not-yet-started session holds neither. -/
def regInv (s : KmipSessionRegisterSymmetricKey) : Prop :=
  match s._state with
  | RegisterSymmetricKeyState.kNotStarted => s._register = none ∧ s._activate = none
  | RegisterSymmetricKeyState.kRegistering => s._activate = none
  | RegisterSymmetricKeyState.kActivating => s._register = none
  | RegisterSymmetricKeyState.kFinished => s._register = none ∧ s._activate = none

theorem regInv_step {s : KmipSessionRegisterSymmetricKey}
    {o : Option KmipExchange} {s' : KmipSessionRegisterSymmetricKey}
    (hinv : regInv s) (h : s.nextExchange = Except.ok (o, s')) : regInv s' := by
  obtain ⟨k, w, st, reg, act, kid⟩ := s
  cases st with
  | kNotStarted =>
      obtain ⟨hreg, hact⟩ := hinv
      simp only at hreg hact
      simp only [KmipSessionRegisterSymmetricKey.nextExchange] at h
      simp only [Except.ok.injEq, Prod.mk.injEq] at h
      obtain ⟨-, h2⟩ := h
      subst h2
      exact hact
  | kRegistering =>
      simp only [regInv] at hinv
      cases reg with
      | none => simp [KmipSessionRegisterSymmetricKey.nextExchange] at h
      | some ex =>
          simp only [KmipSessionRegisterSymmetricKey.nextExchange] at h
          split at h
          · split at h
            · exact absurd h (by simp)
            · split at h
              · simp only [Except.ok.injEq, Prod.mk.injEq] at h
                obtain ⟨-, h2⟩ := h
                subst h2
                exact ⟨rfl, hinv⟩
              · simp only [Except.ok.injEq, Prod.mk.injEq] at h
                obtain ⟨-, h2⟩ := h
                subst h2
                exact rfl
          · exact absurd h (by simp)
  | kActivating =>
      simp only [regInv] at hinv
      cases act with
      | none => simp [KmipSessionRegisterSymmetricKey.nextExchange] at h
      | some ex =>
          simp only [KmipSessionRegisterSymmetricKey.nextExchange] at h
          split at h
          · split at h
            · exact absurd h (by simp)
            · simp only [Except.ok.injEq, Prod.mk.injEq] at h
              obtain ⟨-, h2⟩ := h
              subst h2
              exact ⟨hinv, rfl⟩
          · exact absurd h (by simp)
  | kFinished =>
      simp only [KmipSessionRegisterSymmetricKey.nextExchange] at h
      simp only [Except.ok.injEq, Prod.mk.injEq] at h
      obtain ⟨-, h2⟩ := h
      subst h2
      exact hinv

theorem regInv_deliver (s : KmipSessionRegisterSymmetricKey) (r : KmipResponse)
    (hinv : regInv s) : regInv (s.deliver r) := by
  obtain ⟨k, w, st, reg, act, kid⟩ := s
  cases st with
  | kNotStarted =>
      obtain ⟨hreg, hact⟩ := hinv
      simp only at hreg hact
      subst hreg hact
      exact ⟨rfl, rfl⟩
  | kRegistering =>
      simp only [regInv] at hinv
      subst hinv
      exact rfl
  | kActivating =>
      simp only [regInv] at hinv
      subst hinv
      exact rfl
  | kFinished =>
      obtain ⟨hreg, hact⟩ := hinv
      simp only at hreg hact
      subst hreg hact
      exact ⟨rfl, rfl⟩

theorem regReach_inv {s : KmipSessionRegisterSymmetricKey} (h : RegReach s) :
    regInv s := by
  induction h with
  | init key b => exact ⟨rfl, rfl⟩
  | next h1 h2 ih => exact regInv_step ih h2
  | deliver r h1 ih => exact regInv_deliver _ r ih

/-- Sessions reachable from the GetSymmetricKey constructor by any
interleaving of `nextExchange()` calls and response deliveries. -/
inductive GetReach : KmipSessionGetSymmetricKey → Prop where
  | init (keyId : String) (b : Bool) :
      GetReach (KmipSessionGetSymmetricKey.create keyId b)
  | next {s : KmipSessionGetSymmetricKey} {o : Option KmipExchange}
      {s' : KmipSessionGetSymmetricKey} :
      GetReach s → s.nextExchange = Except.ok (o, s') → GetReach s'
  | deliver {s : KmipSessionGetSymmetricKey} (r : KmipResponse) :
      GetReach s → GetReach (s.deliver r)

/-- State/pointer correspondence for GetSymmetricKey sessions. -/
def getInv (s : KmipSessionGetSymmetricKey) : Prop :=
  match s._state with
  | GetSymmetricKeyState.kNotStarted => s._verify = none ∧ s._retrieve = none
  | GetSymmetricKeyState.kVerifying => s._retrieve = none
  | GetSymmetricKeyState.kRetrieving => s._verify = none
  | GetSymmetricKeyState.kFinished => s._verify = none ∧ s._retrieve = none

theorem getInv_step {s : KmipSessionGetSymmetricKey}
    {o : Option KmipExchange} {s' : KmipSessionGetSymmetricKey}
    (hinv : getInv s) (h : s.nextExchange = Except.ok (o, s')) : getInv s' := by
  obtain ⟨kid, vs, st, ver, ret, k⟩ := s
  cases st with
  | kNotStarted =>
      obtain ⟨hver, hret⟩ := hinv
      simp only at hver hret
      simp only [KmipSessionGetSymmetricKey.nextExchange,
        KmipSessionGetSymmetricKey.transitionToRetrievingState] at h
      split at h
      · simp only [Except.ok.injEq, Prod.mk.injEq] at h
        obtain ⟨-, h2⟩ := h
        subst h2
        exact hret
      · simp only [Except.ok.injEq, Prod.mk.injEq] at h
        obtain ⟨-, h2⟩ := h
        subst h2
        exact hver
  | kVerifying =>
      simp only [getInv] at hinv
      cases ver with
      | none => simp [KmipSessionGetSymmetricKey.nextExchange] at h
      | some ex =>
          simp only [KmipSessionGetSymmetricKey.nextExchange,
            KmipSessionGetSymmetricKey.transitionToRetrievingState] at h
          split at h
          · split at h
            · exact absurd h (by simp)
            · simp only [Except.ok.injEq, Prod.mk.injEq] at h
              obtain ⟨-, h2⟩ := h
              subst h2
              exact ⟨rfl, hinv⟩
            · simp only [Except.ok.injEq, Prod.mk.injEq] at h
              obtain ⟨-, h2⟩ := h
              subst h2
              exact rfl
          · exact absurd h (by simp)
  | kRetrieving =>
      simp only [getInv] at hinv
      cases ret with
      | none => simp [KmipSessionGetSymmetricKey.nextExchange] at h
      | some ex =>
          simp only [KmipSessionGetSymmetricKey.nextExchange] at h
          split at h
          · split at h
            · exact absurd h (by simp)
            · simp only [Except.ok.injEq, Prod.mk.injEq] at h
              obtain ⟨-, h2⟩ := h
              subst h2
              exact ⟨hinv, rfl⟩
          · exact absurd h (by simp)
  | kFinished =>
      simp only [KmipSessionGetSymmetricKey.nextExchange] at h
      simp only [Except.ok.injEq, Prod.mk.injEq] at h
      obtain ⟨-, h2⟩ := h
      subst h2
      exact hinv

theorem getInv_deliver (s : KmipSessionGetSymmetricKey) (r : KmipResponse)
    (hinv : getInv s) : getInv (s.deliver r) := by
  obtain ⟨kid, vs, st, ver, ret, k⟩ := s
  cases st with
  | kNotStarted =>
      obtain ⟨hver, hret⟩ := hinv
      simp only at hver hret
      subst hver hret
      exact ⟨rfl, rfl⟩
  | kVerifying =>
      simp only [getInv] at hinv
      subst hinv
      exact rfl
  | kRetrieving =>
      simp only [getInv] at hinv
      subst hinv
      exact rfl
  | kFinished =>
      obtain ⟨hver, hret⟩ := hinv
      simp only at hver hret
      subst hver hret
      exact ⟨rfl, rfl⟩

theorem getReach_inv {s : KmipSessionGetSymmetricKey} (h : GetReach s) :
    getInv s := by
  induction h with
  | init keyId b => exact ⟨rfl, rfl⟩
  | next h1 h2 ih => exact getInv_step ih h2
  | deliver r h1 ih => exact getInv_deliver _ r ih

/-- Sessions reachable from the VerifyKeyIsActive constructor by any
interleaving of `nextExchange()` calls and response deliveries. -/
inductive VerifyReach : KmipSessionVerifyKeyIsActive → Prop where
  | init (keyId : String) :
      VerifyReach (KmipSessionVerifyKeyIsActive.create keyId)
  | next {s : KmipSessionVerifyKeyIsActive} {o : Option KmipExchange}
      {s' : KmipSessionVerifyKeyIsActive} :
      VerifyReach s → s.nextExchange = Except.ok (o, s') → VerifyReach s'
  | deliver {s : KmipSessionVerifyKeyIsActive} (r : KmipResponse) :
      VerifyReach s → VerifyReach (s.deliver r)

/-- State/pointer correspondence for VerifyKeyIsActive sessions. -/
def verifyInv (s : KmipSessionVerifyKeyIsActive) : Prop :=
  match s._state with
  | VerifyKeyIsActiveState.kNotStarted => s._verify = none
  | VerifyKeyIsActiveState.kVerifying => True
  | VerifyKeyIsActiveState.kFinished => s._verify = none

theorem verifyInv_step {s : KmipSessionVerifyKeyIsActive}
    {o : Option KmipExchange} {s' : KmipSessionVerifyKeyIsActive}
    (hinv : verifyInv s) (h : s.nextExchange = Except.ok (o, s')) :
    verifyInv s' := by
  obtain ⟨kid, st, ver, er⟩ := s
  cases st with
  | kNotStarted =>
      simp only [KmipSessionVerifyKeyIsActive.nextExchange] at h
      simp only [Except.ok.injEq, Prod.mk.injEq] at h
      obtain ⟨-, h2⟩ := h
      subst h2
      trivial
  | kVerifying =>
      cases ver with
      | none => simp [KmipSessionVerifyKeyIsActive.nextExchange] at h
      | some ex =>
          simp only [KmipSessionVerifyKeyIsActive.nextExchange] at h
          split at h
          · split at h
            · exact absurd h (by simp)
            · simp only [Except.ok.injEq, Prod.mk.injEq] at h
              obtain ⟨-, h2⟩ := h
              subst h2
              exact rfl
          · exact absurd h (by simp)
  | kFinished =>
      simp only [KmipSessionVerifyKeyIsActive.nextExchange] at h
      simp only [Except.ok.injEq, Prod.mk.injEq] at h
      obtain ⟨-, h2⟩ := h
      subst h2
      exact hinv

theorem verifyInv_deliver (s : KmipSessionVerifyKeyIsActive) (r : KmipResponse)
    (hinv : verifyInv s) : verifyInv (s.deliver r) := by
  obtain ⟨kid, st, ver, er⟩ := s
  cases st with
  | kNotStarted =>
      simp only [verifyInv] at hinv
      subst hinv
      exact rfl
  | kVerifying => trivial
  | kFinished =>
      simp only [verifyInv] at hinv
      subst hinv
      exact rfl

theorem verifyReach_inv {s : KmipSessionVerifyKeyIsActive} (h : VerifyReach s) :
    verifyInv s := by
  induction h with
  | init keyId => exact rfl
  | next h1 h2 ih => exact verifyInv_step ih h2
  | deliver r h1 ih => exact verifyInv_deliver _ r ih

/-- C8: in every reachable state, a session holds at most one exchange at a
time, and whenever a `nextExchange()` call returns a freshly created
exchange while the session already held one, the held exchange had reached
`kResponseReceived` (the VerifyKeyIsActive variant stores a single exchange
pointer, so only the second half is non-trivial for it). -/
theorem session_single_inflight_exchange :
    (∀ s : KmipSessionRegisterSymmetricKey, RegReach s →
      s._register = none ∨ s._activate = none) ∧
    (∀ (s : KmipSessionRegisterSymmetricKey) (ex e : KmipExchange)
        (s' : KmipSessionRegisterSymmetricKey), RegReach s →
      (s._register = some ex ∨ s._activate = some ex) →
      s.nextExchange = Except.ok (some e, s') →
      ex.state = ExchangeState.kResponseReceived) ∧
    (∀ s : KmipSessionGetSymmetricKey, GetReach s →
      s._verify = none ∨ s._retrieve = none) ∧
    (∀ (s : KmipSessionGetSymmetricKey) (ex e : KmipExchange)
        (s' : KmipSessionGetSymmetricKey), GetReach s →
      (s._verify = some ex ∨ s._retrieve = some ex) →
      s.nextExchange = Except.ok (some e, s') →
      ex.state = ExchangeState.kResponseReceived) ∧
    (∀ (s : KmipSessionVerifyKeyIsActive) (ex e : KmipExchange)
        (s' : KmipSessionVerifyKeyIsActive), VerifyReach s →
      s._verify = some ex →
      s.nextExchange = Except.ok (some e, s') →
      ex.state = ExchangeState.kResponseReceived) := by
  refine ⟨?_, ?_, ?_, ?_, ?_⟩
  · intro s hs
    have hinv := regReach_inv hs
    obtain ⟨k, w, st, reg, act, kid⟩ := s
    cases st with
    | kNotStarted => exact Or.inl hinv.1
    | kRegistering => exact Or.inr hinv
    | kActivating => exact Or.inl hinv
    | kFinished => exact Or.inl hinv.1
  · intro s ex e s' hs hheld hstep
    have hinv := regReach_inv hs
    obtain ⟨k, w, st, reg, act, kid⟩ := s
    cases st with
    | kNotStarted =>
        obtain ⟨h1, h2⟩ := hinv
        simp only at h1 h2
        subst h1 h2
        rcases hheld with hh | hh <;> exact absurd hh (by simp)
    | kRegistering =>
        simp only [regInv] at hinv
        subst hinv
        rcases hheld with hh | hh
        · simp only at hh
          subst hh
          simp only [KmipSessionRegisterSymmetricKey.nextExchange] at hstep
          split at hstep
          · rename_i hcond
            exact hcond
          · exact absurd hstep (by simp)
        · exact absurd hh (by simp)
    | kActivating =>
        simp only [regInv] at hinv
        subst hinv
        rcases hheld with hh | hh
        · exact absurd hh (by simp)
        · simp only at hh
          subst hh
          simp only [KmipSessionRegisterSymmetricKey.nextExchange] at hstep
          split at hstep
          · rename_i hcond
            exact hcond
          · exact absurd hstep (by simp)
    | kFinished =>
        obtain ⟨h1, h2⟩ := hinv
        simp only at h1 h2
        subst h1 h2
        rcases hheld with hh | hh <;> exact absurd hh (by simp)
  · intro s hs
    have hinv := getReach_inv hs
    obtain ⟨kid, vs, st, ver, ret, k⟩ := s
    cases st with
    | kNotStarted => exact Or.inl hinv.1
    | kVerifying => exact Or.inr hinv
    | kRetrieving => exact Or.inl hinv
    | kFinished => exact Or.inl hinv.1
  · intro s ex e s' hs hheld hstep
    have hinv := getReach_inv hs
    obtain ⟨kid, vs, st, ver, ret, k⟩ := s
    cases st with
    | kNotStarted =>
        obtain ⟨h1, h2⟩ := hinv
        simp only at h1 h2
        subst h1 h2
        rcases hheld with hh | hh <;> exact absurd hh (by simp)
    | kVerifying =>
        simp only [getInv] at hinv
        subst hinv
        rcases hheld with hh | hh
        · simp only at hh
          subst hh
          simp only [KmipSessionGetSymmetricKey.nextExchange] at hstep
          split at hstep
          · rename_i hcond
            exact hcond
          · exact absurd hstep (by simp)
        · exact absurd hh (by simp)
    | kRetrieving =>
        simp only [getInv] at hinv
        subst hinv
        rcases hheld with hh | hh
        · exact absurd hh (by simp)
        · simp only at hh
          subst hh
          simp only [KmipSessionGetSymmetricKey.nextExchange] at hstep
          split at hstep
          · rename_i hcond
            exact hcond
          · exact absurd hstep (by simp)
    | kFinished =>
        obtain ⟨h1, h2⟩ := hinv
        simp only at h1 h2
        subst h1 h2
        rcases hheld with hh | hh <;> exact absurd hh (by simp)
  · intro s ex e s' hs hheld hstep
    have hinv := verifyReach_inv hs
    obtain ⟨kid, st, ver, er⟩ := s
    cases st with
    | kNotStarted =>
        simp only [verifyInv] at hinv
        subst hinv
        exact absurd hheld (by simp)
    | kVerifying =>
        simp only at hheld
        subst hheld
        simp only [KmipSessionVerifyKeyIsActive.nextExchange] at hstep
        split at hstep
        · rename_i hcond
          exact hcond
        · exact absurd hstep (by simp)
    | kFinished =>
        simp only [verifyInv] at hinv
        subst hinv
        exact absurd hheld (by simp)

/-- Concrete witness for C8: a freshly constructed Register session holds no
exchange, and when the second `nextExchange()` call creates the Activate
exchange, the held Register exchange had reached `kResponseReceived`. -/
theorem session_single_inflight_exchange_witness :
    ((KmipSessionRegisterSymmetricKey.create { keyId := "", material := [9] }
        true)._register = none ∨
      (KmipSessionRegisterSymmetricKey.create { keyId := "", material := [9] }
        true)._activate = none) ∧
    ((KmipExchange.create
        (KmipOperation.registerSymmetricKey { keyId := "", material := [9] })).driverDeliver
          (KmipResponse.registered "id-8")).state =
      ExchangeState.kResponseReceived :=
  ⟨session_single_inflight_exchange.1 _
      (RegReach.init { keyId := "", material := [9] } true),
    session_single_inflight_exchange.2.1
      (KmipSessionRegisterSymmetricKey.deliver
        { _key := { keyId := "", material := [9] }, _withActivation := true,
          _state := RegisterSymmetricKeyState.kRegistering,
          _register := some
            (KmipExchange.create
              (KmipOperation.registerSymmetricKey { keyId := "", material := [9] })),
          _activate := none, _keyId := "" } (KmipResponse.registered "id-8"))
      ((KmipExchange.create
        (KmipOperation.registerSymmetricKey { keyId := "", material := [9] })).driverDeliver
          (KmipResponse.registered "id-8"))
      (KmipExchange.create (KmipOperation.activate "id-8"))
      { _key := { keyId := "", material := [9] }, _withActivation := true,
        _state := RegisterSymmetricKeyState.kActivating,
        _register := none,
        _activate := some (KmipExchange.create (KmipOperation.activate "id-8")),
        _keyId := "id-8" }
      (RegReach.deliver (KmipResponse.registered "id-8")
        (RegReach.next (RegReach.init { keyId := "", material := [9] } true) rfl))
      (Or.inl rfl) rfl⟩

/-- C10: for every Session variant, whenever a reachable session's state is
`kFinished`, all of its exchange pointers are null — a completed session
retains only its terminal result fields. -/
theorem finished_session_holds_no_exchange :
    (∀ s : KmipSessionRegisterSymmetricKey, RegReach s →
      s._state = RegisterSymmetricKeyState.kFinished →
      s._register = none ∧ s._activate = none) ∧
    (∀ s : KmipSessionGetSymmetricKey, GetReach s →
      s._state = GetSymmetricKeyState.kFinished →
      s._verify = none ∧ s._retrieve = none) ∧
    (∀ s : KmipSessionVerifyKeyIsActive, VerifyReach s →
      s._state = VerifyKeyIsActiveState.kFinished →
      s._verify = none) := by
  refine ⟨?_, ?_, ?_⟩
  · intro s hs hf
    have hinv := regReach_inv hs
    rw [regInv, hf] at hinv
    exact hinv
  · intro s hs hf
    have hinv := getReach_inv hs
    rw [getInv, hf] at hinv
    exact hinv
  · intro s hs hf
    have hinv := verifyReach_inv hs
    rw [verifyInv, hf] at hinv
    exact hinv

/-- Concrete witness for C10: a VerifyKeyIsActive session driven to
`kFinished` holds no exchange. -/
theorem finished_session_holds_no_exchange_witness :
    ({ _keyId := "kw", _state := VerifyKeyIsActiveState.kFinished,
        _verify := none, _error := none } : KmipSessionVerifyKeyIsActive)._verify =
      none :=
  finished_session_holds_no_exchange.2.2
    { _keyId := "kw", _state := VerifyKeyIsActiveState.kFinished,
      _verify := none, _error := none }
    (VerifyReach.next
      (VerifyReach.deliver (KmipResponse.verified none)
        (VerifyReach.next (VerifyReach.init "kw") rfl))
      rfl)
    rfl

/-- A run of the Driver loop, recorded relationally: `SessionTrace step dlv
s as ks sf` holds when, starting from session `s` and performing the Driver
actions `as` in order, the `nextExchange()` calls return exchanges whose
kinds (null included) form the sequence `ks`, ending in session `sf`.  The
relation has no other inputs — in particular no clock — so it captures every
interaction the Driver can have with a session. -/
inductive SessionTrace {σ : Type}
    (step : σ → Except SessionError (Option KmipExchange × σ))
    (dlv : σ → KmipResponse → σ) :
    σ → List DriverAction → List (Option ExchangeKind) → σ → Prop where
  | nil (s : σ) : SessionTrace step dlv s [] [] s
  | callNext {s : σ} {o : Option KmipExchange} {s' : σ} {as : List DriverAction}
      {ks : List (Option ExchangeKind)} {sf : σ} :
      step s = Except.ok (o, s') → SessionTrace step dlv s' as ks sf →
      SessionTrace step dlv s (DriverAction.callNext :: as)
        (o.map KmipExchange.kind :: ks) sf
  | deliver {s : σ} {r : KmipResponse} {as : List DriverAction}
      {ks : List (Option ExchangeKind)} {sf : σ} :
      SessionTrace step dlv (dlv s r) as ks sf →
      SessionTrace step dlv s (DriverAction.deliver r :: as) ks sf

theorem sessionTrace_deterministic {σ : Type}
    (step : σ → Except SessionError (Option KmipExchange × σ))
    (dlv : σ → KmipResponse → σ)
    {s : σ} {as : List DriverAction} {ks1 : List (Option ExchangeKind)} {sf1 : σ}
    (h1 : SessionTrace step dlv s as ks1 sf1) :
    ∀ {ks2 sf2}, SessionTrace step dlv s as ks2 sf2 → ks1 = ks2 ∧ sf1 = sf2 := by
  induction h1 with
  | nil s =>
      intro ks2 sf2 h2
      cases h2
      exact ⟨rfl, rfl⟩
  | callNext hstep htail ih =>
      intro ks2 sf2 h2
      cases h2 with
      | callNext hstep2 htail2 =>
          rw [hstep] at hstep2
          simp only [Except.ok.injEq, Prod.mk.injEq] at hstep2
          obtain ⟨ho, hs⟩ := hstep2
          subst ho hs
          obtain ⟨hk, hf⟩ := ih htail2
          exact ⟨by rw [hk], hf⟩
  | deliver htail ih =>
      intro ks2 sf2 h2
      cases h2 with
      | deliver htail2 => exact ih htail2

/-- C9: for every Session variant, the sequence of exchange kinds returned
across successive `nextExchange()` calls is a deterministic function of the
constructor arguments and the Driver's action sequence (the injected
responses included): two runs with identical constructor arguments and
identical action sequences produce identical exchange-kind sequences and
identical final sessions; the trace relation has no time input, so there is
no dependence on call timing. -/
theorem exchange_kind_trace_deterministic :
    (∀ (key : Key) (b : Bool) (as : List DriverAction)
        (ks1 : List (Option ExchangeKind)) (sf1 : KmipSessionRegisterSymmetricKey)
        (ks2 : List (Option ExchangeKind)) (sf2 : KmipSessionRegisterSymmetricKey),
      SessionTrace KmipSessionRegisterSymmetricKey.nextExchange
        KmipSessionRegisterSymmetricKey.deliver
        (KmipSessionRegisterSymmetricKey.create key b) as ks1 sf1 →
      SessionTrace KmipSessionRegisterSymmetricKey.nextExchange
        KmipSessionRegisterSymmetricKey.deliver
        (KmipSessionRegisterSymmetricKey.create key b) as ks2 sf2 →
      ks1 = ks2 ∧ sf1 = sf2) ∧
    (∀ (keyId : String) (b : Bool) (as : List DriverAction)
        (ks1 : List (Option ExchangeKind)) (sf1 : KmipSessionGetSymmetricKey)
        (ks2 : List (Option ExchangeKind)) (sf2 : KmipSessionGetSymmetricKey),
      SessionTrace KmipSessionGetSymmetricKey.nextExchange
        KmipSessionGetSymmetricKey.deliver
        (KmipSessionGetSymmetricKey.create keyId b) as ks1 sf1 →
      SessionTrace KmipSessionGetSymmetricKey.nextExchange
        KmipSessionGetSymmetricKey.deliver
        (KmipSessionGetSymmetricKey.create keyId b) as ks2 sf2 →
      ks1 = ks2 ∧ sf1 = sf2) ∧
    (∀ (keyId : String) (as : List DriverAction)
        (ks1 : List (Option ExchangeKind)) (sf1 : KmipSessionVerifyKeyIsActive)
        (ks2 : List (Option ExchangeKind)) (sf2 : KmipSessionVerifyKeyIsActive),
      SessionTrace KmipSessionVerifyKeyIsActive.nextExchange
        KmipSessionVerifyKeyIsActive.deliver
        (KmipSessionVerifyKeyIsActive.create keyId) as ks1 sf1 →
      SessionTrace KmipSessionVerifyKeyIsActive.nextExchange
        KmipSessionVerifyKeyIsActive.deliver
        (KmipSessionVerifyKeyIsActive.create keyId) as ks2 sf2 →
      ks1 = ks2 ∧ sf1 = sf2) :=
  ⟨fun _ _ _ _ _ _ _ h1 h2 => sessionTrace_deterministic _ _ h1 h2,
    fun _ _ _ _ _ _ _ h1 h2 => sessionTrace_deterministic _ _ h1 h2,
    fun _ _ _ _ _ _ h1 h2 => sessionTrace_deterministic _ _ h1 h2⟩

/-- Concrete witness for C9: two identical one-call runs of a
VerifyKeyIsActive session produce the same exchange-kind sequence. -/
theorem exchange_kind_trace_deterministic_witness :
    [some ExchangeKind.verifyKeyIsActive] = [some ExchangeKind.verifyKeyIsActive] ∧
    ({ _keyId := "kw9", _state := VerifyKeyIsActiveState.kVerifying,
        _verify := some (KmipExchange.create (KmipOperation.verifyKeyIsActive "kw9")),
        _error := none } : KmipSessionVerifyKeyIsActive) =
      { _keyId := "kw9", _state := VerifyKeyIsActiveState.kVerifying,
        _verify := some (KmipExchange.create (KmipOperation.verifyKeyIsActive "kw9")),
        _error := none } := by
  have htr : SessionTrace KmipSessionVerifyKeyIsActive.nextExchange
      KmipSessionVerifyKeyIsActive.deliver
      (KmipSessionVerifyKeyIsActive.create "kw9") [DriverAction.callNext]
      [some ExchangeKind.verifyKeyIsActive]
      { _keyId := "kw9", _state := VerifyKeyIsActiveState.kVerifying,
        _verify := some (KmipExchange.create (KmipOperation.verifyKeyIsActive "kw9")),
        _error := none } := by
    exact @SessionTrace.callNext _ KmipSessionVerifyKeyIsActive.nextExchange
      KmipSessionVerifyKeyIsActive.deliver
      (KmipSessionVerifyKeyIsActive.create "kw9")
      (some (KmipExchange.create (KmipOperation.verifyKeyIsActive "kw9")))
      { _keyId := "kw9", _state := VerifyKeyIsActiveState.kVerifying,
        _verify := some (KmipExchange.create (KmipOperation.verifyKeyIsActive "kw9")),
        _error := none }
      [] [] _ rfl (SessionTrace.nil _)
  exact exchange_kind_trace_deterministic.2.2 "kw9" [DriverAction.callNext]
    [some ExchangeKind.verifyKeyIsActive]
    { _keyId := "kw9", _state := VerifyKeyIsActiveState.kVerifying,
      _verify := some (KmipExchange.create (KmipOperation.verifyKeyIsActive "kw9")),
      _error := none }
    [some ExchangeKind.verifyKeyIsActive]
    { _keyId := "kw9", _state := VerifyKeyIsActiveState.kVerifying,
      _verify := some (KmipExchange.create (KmipOperation.verifyKeyIsActive "kw9")),
      _error := none }
    htr htr

end KmipVerify
